import Mathlib

/-!
Shallow embedding of the FlightOverhead flight-detection, caching and
notification pipeline, together with proofs about it.

Conventions of the embedding:
* JavaScript `number` values carried by domain data (altitudes, coordinates,
  speeds) are modelled as rationals (`ℚ`); every JavaScript double is a
  rational number.
* `Date.now()` timestamps are modelled as integers (`ℤ`, milliseconds).
* Stateful classes become explicit state records; each method becomes a
  function from the state (plus the method's inputs and the outcomes of its
  external calls, such as the flight API or the system notifier) to the
  method's result and the updated state.
* Real-valued geometry (the Haversine distance) is modelled over `ℝ` with
  `Real.sin`, `Real.cos`, `Real.arctan`.
-/

namespace FlightOverhead

/-- Domain `Flight` model (src/domain/models, `Flight` interface), with the
`isOnGround` field that `FlightMapper.toFlight` adds to every mapped flight. -/
structure Flight where
  id : String
  flightNumber : String
  aircraftType : String
  origin : String
  originCity : String
  destination : String
  destinationCity : String
  altitude : ℚ
  heading : ℚ
  speed : ℚ
  latitude : ℚ
  longitude : ℚ
  timestamp : ℚ
  isOnGround : Bool
  deriving DecidableEq

/-- A concrete flight used by closed witness statements. -/
def sampleFlight (ident : String) (alt : ℚ) : Flight :=
  { id := ident
    flightNumber := ident
    aircraftType := ("Unknown")
    origin := ("Unknown")
    originCity := ("Unknown")
    destination := ("Unknown")
    destinationCity := ("Unknown")
    altitude := alt
    heading := 0
    speed := 0
    latitude := 0
    longitude := 0
    timestamp := 0
    isOnGround := false }

/-! ## FlightDetector (src/domain/services/FlightDetector.ts) -/

/-- Mutable fields of the `FlightDetector` class. -/
structure FlightDetectorState where
  lastDetectedFlights : List Flight
  lastDetectionTime : ℤ
  deriving DecidableEq

/-- Fresh `FlightDetector` instance. -/
def FlightDetectorState.initial : FlightDetectorState :=
  { lastDetectedFlights := [], lastDetectionTime := 0 }

/-- `FlightDetector.identifyNewFlights`: on the first detection every current
flight is new; afterwards keep the current flights whose id is not among the
ids of the previously detected flights. -/
def identifyNewFlights (s : FlightDetectorState) (currentFlights : List Flight) :
    List Flight :=
  if s.lastDetectedFlights.length = 0 then
    currentFlights
  else
    let previousIds := s.lastDetectedFlights.map (fun flight => flight.id)
    currentFlights.filter (fun flight => !(previousIds.contains flight.id))

/-- `FlightDetector.detectOverheadFlights`. The outcome of the repository call
`getNearbyAircraft` is passed in as `apiResult` (`.ok` = the promise resolved
with the nearby aircraft, `.error` = it rejected); `now` is the `Date.now()`
reading of the call. On success the state is updated and the new detections
are returned; on failure the error is wrapped and rethrown, the state
untouched. -/
def detectOverheadFlights (s : FlightDetectorState) (now : ℤ)
    (apiResult : Except String (List Flight)) :
    Except String (List Flight) × FlightDetectorState :=
  match apiResult with
  | .ok nearbyAircraft =>
      let newDetections := identifyNewFlights s nearbyAircraft
      (.ok newDetections,
        { lastDetectedFlights := nearbyAircraft, lastDetectionTime := now })
  | .error e => (.error e, s)

/-- `FlightDetector.getLastDetectedFlights`. -/
def getLastDetectedFlights (s : FlightDetectorState) : List Flight :=
  s.lastDetectedFlights

/-- C1: a successful `detectOverheadFlights` call with current nearby-aircraft
list `C` returns, in order, exactly the flights of `C` whose id does not occur
among the ids of the previously detected list; when that previous list is
empty it returns all of `C`. -/
theorem detectOverheadFlights_set_difference (s : FlightDetectorState) (now : ℤ)
    (C : List Flight) :
    (detectOverheadFlights s now (.ok C)).1 =
      .ok (C.filter (fun f =>
        decide (f.id ∉ s.lastDetectedFlights.map (fun g => g.id)))) ∧
    (s.lastDetectedFlights = [] → (detectOverheadFlights s now (.ok C)).1 = .ok C) := by
  constructor
  · simp only [detectOverheadFlights, identifyNewFlights]
    by_cases h : s.lastDetectedFlights.length = 0
    · rw [if_pos h]
      rw [List.length_eq_zero] at h
      simp [h]
    · rw [if_neg h]
      congr 1
      apply List.filter_congr
      intro f _
      rw [show (List.map (fun flight => flight.id) s.lastDetectedFlights).contains f.id
            = decide (f.id ∈ List.map (fun flight => flight.id) s.lastDetectedFlights) from
          List.elem_eq_mem _ _]
      rw [decide_not]
  · intro h
    simp [detectOverheadFlights, identifyNewFlights, h]

/-- C9: after a successful `detectOverheadFlights` call with nearby list `C`,
`getLastDetectedFlights` returns the full list `C`, while the call itself
returns a subset of `C`; a failed call leaves the detector state unchanged. -/
theorem getLastDetectedFlights_after_detect (s : FlightDetectorState) (now : ℤ)
    (C : List Flight) (e : String) :
    getLastDetectedFlights (detectOverheadFlights s now (.ok C)).2 = C ∧
    (∀ D, (detectOverheadFlights s now (.ok C)).1 = .ok D → D ⊆ C) ∧
    (detectOverheadFlights s now (.error e)).2 = s := by
  refine ⟨rfl, ?_, rfl⟩
  intro D hD
  simp only [detectOverheadFlights, identifyNewFlights] at hD
  split at hD
  · cases hD
    exact fun _ h => h
  · cases hD
    exact fun x hx => (List.mem_filter.mp hx).1

/-! ## CacheService (src/data/services/CacheService.ts)

`AsyncStorage` is an external flat key-value store; it is modelled as an
association list with unique keys in which `setItem` replaces any previous
binding of the key and `removeItem` drops it.  Cache entries live under the
`KEY_PREFIX` namespace and the key registry under the distinct `CACHE_KEYS`
key, so the two are modelled as separate fields; keys are kept unprefixed
(prefixing is injective).  `JSON.stringify`/`JSON.parse` round-trips of the
stored entries are modelled as the identity. -/

/-- `CacheEntry<T>` as stored by `cacheData`. -/
structure CacheEntry (V : Type) where
  data : V
  timestamp : ℤ
  expiryMs : ℤ
  deriving DecidableEq

/-- State of the cache: entries under `KEY_PREFIX`, and the parsed contents of
the `CACHE_KEYS` key registry. -/
structure CacheState (V : Type) where
  store : List (String × CacheEntry V)
  registry : List String
  deriving DecidableEq

/-- Empty storage: no cache entries, empty key registry. -/
def CacheState.initial (V : Type) : CacheState V := { store := [], registry := [] }

/-- `AsyncStorage.setItem` on a prefixed cache key: replace any previous
binding. -/
def storeSetItem {V : Type} (store : List (String × CacheEntry V)) (k : String)
    (e : CacheEntry V) : List (String × CacheEntry V) :=
  (k, e) :: store.filter (fun p => p.1 ≠ k)

/-- `AsyncStorage.removeItem` on a prefixed cache key. -/
def storeRemoveItem {V : Type} (store : List (String × CacheEntry V)) (k : String) :
    List (String × CacheEntry V) :=
  store.filter (fun p => p.1 ≠ k)

/-- `CacheService.addKeyToRegistry`: push the key unless already present. -/
def addKeyToRegistry (registry : List String) (k : String) : List String :=
  if registry.contains k then registry else registry ++ [k]

/-- `CacheService.removeKeyFromRegistry`: filter the key out. -/
def removeKeyFromRegistry (registry : List String) (k : String) : List String :=
  registry.filter (fun x => x ≠ k)

/-- `CacheService.cacheData`: store `{data, timestamp: Date.now(), expiryMs}`
under the key and register the key. -/
def cacheData {V : Type} (k : String) (v : V) (expiryMs : ℤ) (now : ℤ)
    (s : CacheState V) : CacheState V :=
  { store := storeSetItem s.store k { data := v, timestamp := now, expiryMs := expiryMs }
    registry := addKeyToRegistry s.registry k }

/-- `CacheService.removeCacheItem`: drop the entry and deregister the key. -/
def removeCacheItem {V : Type} (k : String) (s : CacheState V) : CacheState V :=
  { store := storeRemoveItem s.store k
    registry := removeKeyFromRegistry s.registry k }

/-- `CacheService.getCachedData`: missing key reads `null`; an entry whose age
`now - timestamp` exceeds `expiryMs` is removed and reads `null`; otherwise
the stored data is returned. -/
def getCachedData {V : Type} (k : String) (now : ℤ) (s : CacheState V) :
    Option V × CacheState V :=
  match s.store.lookup k with
  | none => (none, s)
  | some entry =>
      if now - entry.timestamp > entry.expiryMs then
        (none, removeCacheItem k s)
      else
        (some entry.data, s)

/-- `CacheService.isCacheValid`: an entry exists and its age has not exceeded
its expiry. -/
def isCacheValid {V : Type} (k : String) (now : ℤ) (s : CacheState V) : Bool :=
  match s.store.lookup k with
  | none => false
  | some entry => now - entry.timestamp ≤ entry.expiryMs

/-- `CacheService.clearCache`: remove every registered key's entry and reset
the registry to `[]` (no-op when the registry is empty). -/
def clearCache {V : Type} (s : CacheState V) : CacheState V :=
  if s.registry.length = 0 then s
  else
    { store := s.registry.foldl storeRemoveItem s.store
      registry := [] }

/-- `CacheService.getCacheSize`: length of the key registry. -/
def getCacheSize {V : Type} (s : CacheState V) : ℕ :=
  s.registry.length

/-- States reachable from empty storage by the `CacheService` operations. -/
inductive CacheReachable {V : Type} : CacheState V → Prop
  | init : CacheReachable (CacheState.initial V)
  | cache (s : CacheState V) (k : String) (v : V) (e now : ℤ) :
      CacheReachable s → CacheReachable (cacheData k v e now s)
  | read (s : CacheState V) (k : String) (now : ℤ) :
      CacheReachable s → CacheReachable (getCachedData k now s).2
  | remove (s : CacheState V) (k : String) :
      CacheReachable s → CacheReachable (removeCacheItem k s)
  | clear (s : CacheState V) :
      CacheReachable s → CacheReachable (clearCache s)

/-- Key-registry invariant: the registry is duplicate-free and holds exactly
the keys that have a stored cache entry. -/
def CacheInv {V : Type} (s : CacheState V) : Prop :=
  s.registry.Nodup ∧ (s.store.map Prod.fst).Nodup ∧
    ∀ k, k ∈ s.registry ↔ k ∈ s.store.map Prod.fst

theorem lookup_filter_ne_self {V : Type} (store : List (String × CacheEntry V))
    (k : String) : (store.filter (fun p => p.1 ≠ k)).lookup k = none := by
  induction store with
  | nil => rfl
  | cons p t ih =>
    simp only [List.filter_cons]
    by_cases h : p.1 = k
    · rw [if_neg (by simpa using h)]
      exact ih
    · rw [if_pos (by simpa using h)]
      rcases p with ⟨a, b⟩
      rw [List.lookup_cons]
      have hbeq : (k == a) = false := by
        simpa using Ne.symm h
      rw [hbeq]
      exact ih

theorem lookup_storeSetItem_self {V : Type} (store : List (String × CacheEntry V))
    (k : String) (e : CacheEntry V) : (storeSetItem store k e).lookup k = some e := by
  simp [storeSetItem, List.lookup]

theorem mem_keys_filter {V : Type} (store : List (String × CacheEntry V))
    (k k' : String) :
    k' ∈ (store.filter (fun p => p.1 ≠ k)).map Prod.fst ↔
      k' ∈ store.map Prod.fst ∧ k' ≠ k := by
  constructor
  · rintro h
    rw [List.mem_map] at h
    obtain ⟨p, hp, rfl⟩ := h
    rw [List.mem_filter] at hp
    exact ⟨List.mem_map_of_mem _ hp.1, by simpa using hp.2⟩
  · rintro ⟨h, hne⟩
    rw [List.mem_map] at h
    obtain ⟨p, hp, rfl⟩ := h
    exact List.mem_map_of_mem _ (List.mem_filter.mpr ⟨hp, by simpa using hne⟩)

theorem nodup_keys_filter {V : Type} (store : List (String × CacheEntry V))
    (k : String) (h : (store.map Prod.fst).Nodup) :
    ((store.filter (fun p => p.1 ≠ k)).map Prod.fst).Nodup :=
  ((List.filter_sublist store).map Prod.fst).nodup h

theorem mem_addKeyToRegistry (registry : List String) (k k' : String) :
    k' ∈ addKeyToRegistry registry k ↔ k' ∈ registry ∨ k' = k := by
  unfold addKeyToRegistry
  by_cases h : registry.contains k
  · rw [if_pos h]
    replace h : k ∈ registry := by simpa using h
    constructor
    · exact Or.inl
    · rintro (hm | rfl)
      · exact hm
      · exact h
  · rw [if_neg h]
    simp

theorem nodup_addKeyToRegistry (registry : List String) (k : String)
    (h : registry.Nodup) : (addKeyToRegistry registry k).Nodup := by
  unfold addKeyToRegistry
  by_cases hc : registry.contains k
  · rwa [if_pos hc]
  · rw [if_neg hc]
    replace hc : k ∉ registry := by simpa using hc
    simpa [List.nodup_append] using ⟨h, hc⟩

theorem mem_removeKeyFromRegistry (registry : List String) (k k' : String) :
    k' ∈ removeKeyFromRegistry registry k ↔ k' ∈ registry ∧ k' ≠ k := by
  simp [removeKeyFromRegistry]

/-- `cacheData` preserves the key-registry invariant. -/
theorem cacheInv_cacheData {V : Type} (s : CacheState V) (k : String) (v : V)
    (e now : ℤ) (h : CacheInv s) : CacheInv (cacheData k v e now s) := by
  obtain ⟨hreg, hkeys, hiff⟩ := h
  have hstore : (cacheData k v e now s).store =
      (k, { data := v, timestamp := now, expiryMs := e }) ::
        s.store.filter (fun p => p.1 ≠ k) := rfl
  have hregeq : (cacheData k v e now s).registry = addKeyToRegistry s.registry k := rfl
  refine ⟨?_, ?_, ?_⟩
  · rw [hregeq]
    exact nodup_addKeyToRegistry _ _ hreg
  · rw [hstore, List.map_cons, List.nodup_cons]
    exact ⟨fun hk => ((mem_keys_filter s.store k k).mp hk).2 rfl,
      nodup_keys_filter s.store k hkeys⟩
  · intro k'
    rw [hstore, hregeq, mem_addKeyToRegistry, List.map_cons, List.mem_cons,
      mem_keys_filter]
    by_cases hk : k' = k
    · simp [hk]
    · simp [hk, hiff k']

/-- `removeCacheItem` preserves the key-registry invariant. -/
theorem cacheInv_removeCacheItem {V : Type} (s : CacheState V) (k : String)
    (h : CacheInv s) : CacheInv (removeCacheItem k s) := by
  obtain ⟨hreg, hkeys, hiff⟩ := h
  refine ⟨hreg.filter _, nodup_keys_filter s.store k hkeys, ?_⟩
  intro k'
  rw [show (removeCacheItem k s).registry = removeKeyFromRegistry s.registry k from rfl,
    show (removeCacheItem k s).store = s.store.filter (fun p => p.1 ≠ k) from rfl,
    mem_removeKeyFromRegistry, mem_keys_filter, hiff k']

/-- `getCachedData` leaves the state unchanged or removes the read key. -/
theorem getCachedData_snd_cases {V : Type} (k : String) (now : ℤ) (s : CacheState V) :
    (getCachedData k now s).2 = s ∨ (getCachedData k now s).2 = removeCacheItem k s := by
  unfold getCachedData
  rcases s.store.lookup k with _ | entry
  · exact Or.inl rfl
  · by_cases h : now - entry.timestamp > entry.expiryMs
    · exact Or.inr (by simp [h])
    · exact Or.inl (by simp [h])

theorem foldl_storeRemoveItem_eq_nil {V : Type} (keys : List String) :
    ∀ store : List (String × CacheEntry V), (∀ p ∈ store, p.1 ∈ keys) →
      keys.foldl storeRemoveItem store = [] := by
  induction keys with
  | nil =>
    intro store h
    rcases store with _ | ⟨p, t⟩
    · rfl
    · exact absurd (h p (List.mem_cons_self p t)) (List.not_mem_nil p.1)
  | cons k ks ih =>
    intro store h
    rw [List.foldl_cons]
    refine ih _ ?_
    intro p hp
    rw [show storeRemoveItem store k = store.filter (fun q => q.1 ≠ k) from rfl,
      List.mem_filter] at hp
    have hmem := h p hp.1
    rw [List.mem_cons] at hmem
    rcases hmem with h1 | h1
    · exact absurd h1 (by simpa using hp.2)
    · exact h1

/-- Under the invariant, `clearCache` empties both the store and the
registry. -/
theorem clearCache_empties {V : Type} (s : CacheState V) (h : CacheInv s) :
    (clearCache s).store = [] ∧ (clearCache s).registry = [] := by
  obtain ⟨_, _, hiff⟩ := h
  unfold clearCache
  by_cases hlen : s.registry.length = 0
  · rw [if_pos hlen]
    rw [List.length_eq_zero] at hlen
    have hstore : s.store = [] := by
      have : s.store.map Prod.fst = [] := by
        rw [List.eq_nil_iff_forall_not_mem]
        intro k hk
        rw [← hiff k, hlen] at hk
        exact (List.not_mem_nil k) hk
      exact List.map_eq_nil_iff.mp this
    exact ⟨hstore, hlen⟩
  · rw [if_neg hlen]
    refine ⟨?_, rfl⟩
    refine foldl_storeRemoveItem_eq_nil _ _ ?_
    intro p hp
    exact (hiff p.1).mpr (List.mem_map_of_mem _ hp)

/-- `clearCache` preserves the key-registry invariant. -/
theorem cacheInv_clearCache {V : Type} (s : CacheState V) (h : CacheInv s) :
    CacheInv (clearCache s) := by
  obtain ⟨h1, h2⟩ := clearCache_empties s h
  rw [CacheInv, h1, h2]
  simp

/-- Every reachable cache state satisfies the key-registry invariant. -/
theorem cacheReachable_inv {V : Type} (s : CacheState V) (h : CacheReachable s) :
    CacheInv s := by
  induction h with
  | init => exact ⟨List.nodup_nil, List.nodup_nil, by simp [CacheState.initial]⟩
  | cache s k v e now _ ih => exact cacheInv_cacheData s k v e now ih
  | read s k now _ ih =>
    rcases getCachedData_snd_cases k now s with h2 | h2
    · rwa [h2]
    · rw [h2]
      exact cacheInv_removeCacheItem s k ih
  | remove s k _ ih => exact cacheInv_removeCacheItem s k ih
  | clear s _ ih => exact cacheInv_clearCache s ih

/-- C3: for a stored entry with write timestamp `t` and expiry `e`, a read at
`now` returns the value when `now - t ≤ e` and removes the entry (from store
and registry) returning `null` when `now - t > e`; `isCacheValid` is true
exactly when `now - t ≤ e`, so the two agree on the expiry boundary. -/
theorem getCachedData_ttl_expiry {V : Type} (s : CacheState V) (k : String)
    (now : ℤ) (v : V) (t e : ℤ)
    (h : s.store.lookup k = some { data := v, timestamp := t, expiryMs := e }) :
    (now - t ≤ e → getCachedData k now s = (some v, s)) ∧
    (now - t > e →
      getCachedData k now s = (none, removeCacheItem k s) ∧
      (removeCacheItem k s).store.lookup k = none ∧
      k ∉ (removeCacheItem k s).registry) ∧
    (isCacheValid k now s = true ↔ now - t ≤ e) ∧
    (∀ (s' : CacheState V) (k' : String), s'.store.lookup k' = none →
      isCacheValid k' now s' = false) := by
  refine ⟨?_, ?_, ?_, ?_⟩
  · intro hle
    unfold getCachedData
    rw [h]
    simp only []
    rw [if_neg (by simpa using hle)]
  · intro hgt
    refine ⟨?_, ?_, ?_⟩
    · unfold getCachedData
      rw [h]
      simp only []
      rw [if_pos (by simpa using hgt)]
    · exact lookup_filter_ne_self s.store k
    · rw [show (removeCacheItem k s).registry = removeKeyFromRegistry s.registry k
        from rfl, mem_removeKeyFromRegistry]
      simp
  · unfold isCacheValid
    rw [h]
    simp
  · intro s' k' hnone
    unfold isCacheValid
    rw [hnone]

/-- Closed witness for C3 at a concrete store. -/
theorem getCachedData_ttl_expiry_witness :
    (((50:ℤ) - 0 ≤ 100 →
      getCachedData (("k")) 50 (CacheState.mk [((("k")), ⟨(5:ℤ), 0, 100⟩)] [(("k"))]) =
        (some 5, CacheState.mk [((("k")), ⟨(5:ℤ), 0, 100⟩)] [(("k"))])) ∧
    ((50:ℤ) - 0 > 100 →
      getCachedData (("k")) 50 (CacheState.mk [((("k")), ⟨(5:ℤ), 0, 100⟩)] [(("k"))]) =
        (none, removeCacheItem (("k")) (CacheState.mk [((("k")), ⟨(5:ℤ), 0, 100⟩)] [(("k"))])) ∧
      (removeCacheItem (("k")) (CacheState.mk [((("k")), ⟨(5:ℤ), 0, 100⟩)] [(("k"))])).store.lookup (("k")) = none ∧
      (("k")) ∉ (removeCacheItem (("k")) (CacheState.mk [((("k")), ⟨(5:ℤ), 0, 100⟩)] [(("k"))])).registry) ∧
    (isCacheValid (("k")) 50 (CacheState.mk [((("k")), ⟨(5:ℤ), 0, 100⟩)] [(("k"))]) = true ↔
      (50:ℤ) - 0 ≤ 100) ∧
    (∀ (s' : CacheState ℤ) (k' : String), s'.store.lookup k' = none →
      isCacheValid k' 50 s' = false)) :=
  getCachedData_ttl_expiry _ _ 50 5 0 100 (by rfl)

/-- C6: caching a value and reading it back before its expiry has elapsed
(with no intervening write or removal) yields the value. -/
theorem cacheData_roundtrip {V : Type} (s : CacheState V) (k : String) (v : V)
    (e now1 now2 : ℤ) (_hpos : 0 < e) (helapsed : now2 - now1 < e) :
    (getCachedData k now2 (cacheData k v e now1 s)).1 = some v := by
  unfold getCachedData
  rw [show (cacheData k v e now1 s).store =
    storeSetItem s.store k { data := v, timestamp := now1, expiryMs := e } from rfl]
  rw [lookup_storeSetItem_self]
  simp only []
  rw [if_neg (by simp only [not_lt]; exact le_of_lt helapsed)]

/-- Closed witness for C6 at a concrete store. -/
theorem cacheData_roundtrip_witness :
    (getCachedData (("k")) 40 (cacheData (("k")) (7:ℤ) 100 30 (CacheState.initial ℤ))).1 =
      some 7 :=
  cacheData_roundtrip _ _ 7 100 30 40 (by norm_num) (by norm_num)

/-- C7: every reachable cache state satisfies the key-registry invariant (the
registry holds each key at most once and exactly the stored keys), so
`getCacheSize` counts the stored entries, and after `clearCache` the size is
zero and every key reads `null`. -/
theorem cache_registry_invariant {V : Type} (s : CacheState V)
    (h : CacheReachable s) :
    CacheInv s ∧ getCacheSize s = s.store.length ∧
    getCacheSize (clearCache s) = 0 ∧
    (∀ k now, (getCachedData k now (clearCache s)).1 = none) := by
  have hinv := cacheReachable_inv s h
  obtain ⟨hstore, hreg⟩ := clearCache_empties s hinv
  refine ⟨hinv, ?_, ?_, ?_⟩
  · obtain ⟨h1, h2, h3⟩ := hinv
    have hperm : s.registry.Perm (s.store.map Prod.fst) :=
      (List.perm_ext_iff_of_nodup h1 h2).mpr h3
    rw [getCacheSize, hperm.length_eq, List.length_map]
  · rw [getCacheSize, hreg]
    rfl
  · intro k now
    unfold getCachedData
    rw [hstore]
    rfl

/-- Closed witness for C7 at a concrete reachable state. -/
theorem cache_registry_invariant_witness :
    CacheInv (cacheData (("a")) (5:ℤ) 100 0 (CacheState.initial ℤ)) ∧
    getCacheSize (cacheData (("a")) (5:ℤ) 100 0 (CacheState.initial ℤ)) =
      (cacheData (("a")) (5:ℤ) 100 0 (CacheState.initial ℤ)).store.length ∧
    getCacheSize (clearCache (cacheData (("a")) (5:ℤ) 100 0 (CacheState.initial ℤ))) = 0 ∧
    (∀ k now, (getCachedData k now
      (clearCache (cacheData (("a")) (5:ℤ) 100 0 (CacheState.initial ℤ)))).1 = none) :=
  cache_registry_invariant _ (CacheReachable.cache _ _ _ _ _ CacheReachable.init)

/-! ## NotificationManager (src/domain/services/NotificationManager.ts)

Each call is modelled as atomic at its `Date.now()` reading `now`.  The
outcome of the underlying `NotificationService.showFlightNotification` call
(resolving vs. throwing) is passed in as a boolean oracle. -/

/-- Mutable fields of `NotificationManager` relevant to throttling. -/
structure NotificationManagerState where
  lastNotificationTime : ℤ
  notificationsEnabled : Bool
  deriving DecidableEq

/-- Fresh `NotificationManager` instance. -/
def NotificationManagerState.initial : NotificationManagerState :=
  { lastNotificationTime := 0, notificationsEnabled := true }

/-- 30 seconds minimum between notifications. -/
def throttleIntervalMs : ℤ := 30 * 1000

/-- Maximum notifications to show at once. -/
def maxNotificationsPerBatch : ℕ := 3

/-- `NotificationManager.shouldSendNotification`: time since the last
notification has reached the throttle interval. -/
def shouldSendNotification (s : NotificationManagerState) (now : ℤ) : Bool :=
  now - s.lastNotificationTime ≥ throttleIntervalMs

/-- `NotificationManager.notifyFlightDetected`.  Returns whether a
notification was sent, and the updated state.  `sendOk` is the outcome of the
`showFlightNotification` call (`false` = it threw). -/
def notifyFlightDetected (s : NotificationManagerState) (now : ℤ)
    (_flight : Flight) (sendOk : Bool) : Bool × NotificationManagerState :=
  if s.notificationsEnabled = false then (false, s)
  else if shouldSendNotification s now = false then (false, s)
  else if sendOk then (true, { s with lastNotificationTime := now })
  else (false, s)

/-- `NotificationManager.notifyFlightsDetected`: under throttling, sort the
batch by altitude ascending, keep the first `maxNotificationsPerBatch`, try to
notify each (the per-flight outcome is the oracle `sendOk`), return the
flights successfully notified, and refresh `lastNotificationTime` only when at
least one notification was sent. -/
def notifyFlightsDetected (s : NotificationManagerState) (now : ℤ)
    (flights : List Flight) (sendOk : Flight → Bool) :
    List Flight × NotificationManagerState :=
  if s.notificationsEnabled = false ∨ flights.length = 0 then ([], s)
  else if shouldSendNotification s now = false then ([], s)
  else
    let sortedFlights := flights.mergeSort (fun a b => decide (a.altitude ≤ b.altitude))
    let flightsToNotify := sortedFlights.take maxNotificationsPerBatch
    let notifiedFlights := flightsToNotify.filter sendOk
    if notifiedFlights.length > 0 then
      (notifiedFlights, { s with lastNotificationTime := now })
    else
      (notifiedFlights, s)

/-- One call to the notification manager, together with its clock reading and
the outcomes of its notification-service calls. -/
inductive ManagerCall where
  | single (now : ℤ) (flight : Flight) (sendOk : Bool)
  | batch (now : ℤ) (flights : List Flight) (sendOk : Flight → Bool)

/-- Clock reading of a manager call. -/
def ManagerCall.time : ManagerCall → ℤ
  | .single now _ _ => now
  | .batch now _ _ => now

/-- State after a manager call. -/
def managerStep (s : NotificationManagerState) : ManagerCall → NotificationManagerState
  | .single now flight sendOk => (notifyFlightDetected s now flight sendOk).2
  | .batch now flights sendOk => (notifyFlightsDetected s now flights sendOk).2

/-- Whether a manager call sent any notification (returned `true`,
respectively a non-empty list). -/
def callSent (s : NotificationManagerState) : ManagerCall → Bool
  | .single now flight sendOk => (notifyFlightDetected s now flight sendOk).1
  | .batch now flights sendOk =>
      decide ((notifyFlightsDetected s now flights sendOk).1 ≠ [])

/-- Clock readings of the calls of a call sequence that sent notifications. -/
def sendTimes (s : NotificationManagerState) : List ManagerCall → List ℤ
  | [] => []
  | c :: cs =>
      if callSent s c then c.time :: sendTimes (managerStep s c) cs
      else sendTimes (managerStep s c) cs

/-- Case analysis of `notifyFlightDetected`: either a notification is sent
under an open throttle gate, or the call is a no-op. -/
theorem notifyFlightDetected_cases (s : NotificationManagerState) (now : ℤ)
    (flight : Flight) (sendOk : Bool) :
    (notifyFlightDetected s now flight sendOk =
        (true, { s with lastNotificationTime := now }) ∧
      shouldSendNotification s now = true) ∨
    notifyFlightDetected s now flight sendOk = (false, s) := by
  unfold notifyFlightDetected
  by_cases h1 : s.notificationsEnabled = false
  · right; rw [if_pos h1]
  · rw [if_neg h1]
    by_cases h2 : shouldSendNotification s now = false
    · right; rw [if_pos h2]
    · rw [if_neg h2]
      cases sendOk with
      | false => right; rfl
      | true =>
        left
        exact ⟨rfl, Bool.not_eq_false _ ▸ h2⟩

/-- Case analysis of `notifyFlightsDetected`: either a non-empty list of
flights is notified under an open throttle gate, or the call returns `[]` and
leaves the state unchanged. -/
theorem notifyFlightsDetected_cases (s : NotificationManagerState) (now : ℤ)
    (flights : List Flight) (sendOk : Flight → Bool) :
    ((notifyFlightsDetected s now flights sendOk).1 ≠ [] ∧
      (notifyFlightsDetected s now flights sendOk).2 =
        { s with lastNotificationTime := now } ∧
      shouldSendNotification s now = true) ∨
    ((notifyFlightsDetected s now flights sendOk).1 = [] ∧
      (notifyFlightsDetected s now flights sendOk).2 = s) := by
  unfold notifyFlightsDetected
  by_cases h1 : s.notificationsEnabled = false ∨ flights.length = 0
  · right; rw [if_pos h1]; exact ⟨rfl, rfl⟩
  · rw [if_neg h1]
    by_cases h2 : shouldSendNotification s now = false
    · right; rw [if_pos h2]; exact ⟨rfl, rfl⟩
    · rw [if_neg h2]
      simp only []
      by_cases h3 :
          (((flights.mergeSort (fun a b => decide (a.altitude ≤ b.altitude))).take
            maxNotificationsPerBatch).filter sendOk).length > 0
      · left
        rw [if_pos h3]
        refine ⟨?_, rfl, Bool.not_eq_false _ ▸ h2⟩
        have hne : (List.filter sendOk (List.take maxNotificationsPerBatch
            (flights.mergeSort fun a b => decide (a.altitude ≤ b.altitude)))) ≠ [] := by
          intro hnil
          rw [hnil] at h3
          exact absurd h3 (by simp)
        exact hne
      · right
        rw [if_neg h3]
        refine ⟨?_, rfl⟩
        show (List.filter sendOk (List.take maxNotificationsPerBatch
            (flights.mergeSort fun a b => decide (a.altitude ≤ b.altitude)))) = []
        exact List.length_eq_zero.mp (by omega)

/-- A call that sends happened at least a throttle interval after the
recorded last notification, and records its own time. -/
theorem callSent_step (s : NotificationManagerState) (c : ManagerCall)
    (h : callSent s c = true) :
    s.lastNotificationTime + throttleIntervalMs ≤ c.time ∧
    (managerStep s c).lastNotificationTime = c.time := by
  cases c with
  | single now flight sendOk =>
    rcases notifyFlightDetected_cases s now flight sendOk with ⟨heq, hsh⟩ | heq
    · rw [shouldSendNotification] at hsh
      replace hsh := of_decide_eq_true hsh
      refine ⟨?_, ?_⟩
      · show s.lastNotificationTime + throttleIntervalMs ≤ now
        omega
      · show (notifyFlightDetected s now flight sendOk).2.lastNotificationTime = now
        rw [heq]
    · rw [show callSent s (ManagerCall.single now flight sendOk) =
        (notifyFlightDetected s now flight sendOk).1 from rfl, heq] at h
      exact absurd h (by simp)
  | batch now flights sendOk =>
    rcases notifyFlightsDetected_cases s now flights sendOk with ⟨_, heq, hsh⟩ | ⟨heq, _⟩
    · rw [shouldSendNotification] at hsh
      replace hsh := of_decide_eq_true hsh
      refine ⟨?_, ?_⟩
      · show s.lastNotificationTime + throttleIntervalMs ≤ now
        omega
      · show (notifyFlightsDetected s now flights sendOk).2.lastNotificationTime = now
        rw [heq]
    · rw [show callSent s (ManagerCall.batch now flights sendOk) =
        decide ((notifyFlightsDetected s now flights sendOk).1 ≠ []) from rfl,
        heq] at h
      exact absurd h (by simp)

/-- A call that does not send leaves the recorded last notification time
unchanged. -/
theorem callNotSent_step (s : NotificationManagerState) (c : ManagerCall)
    (h : callSent s c = false) :
    (managerStep s c).lastNotificationTime = s.lastNotificationTime := by
  cases c with
  | single now flight sendOk =>
    rcases notifyFlightDetected_cases s now flight sendOk with ⟨heq, _⟩ | heq
    · rw [show callSent s (ManagerCall.single now flight sendOk) =
        (notifyFlightDetected s now flight sendOk).1 from rfl, heq] at h
      exact absurd h (by simp)
    · show (notifyFlightDetected s now flight sendOk).2.lastNotificationTime = _
      rw [heq]
  | batch now flights sendOk =>
    rcases notifyFlightsDetected_cases s now flights sendOk with ⟨hne, _, _⟩ | ⟨_, heq⟩
    · rw [show callSent s (ManagerCall.batch now flights sendOk) =
        decide ((notifyFlightsDetected s now flights sendOk).1 ≠ []) from rfl] at h
      rw [decide_eq_false_iff_not, not_not] at h
      exact absurd h hne
    · show (notifyFlightsDetected s now flights sendOk).2.lastNotificationTime = _
      rw [heq]

/-- Every recorded send time lies at least a throttle interval after the
state's last notification time. -/
theorem mem_sendTimes_lower (cs : List ManagerCall) :
    ∀ (s : NotificationManagerState) (t : ℤ), t ∈ sendTimes s cs →
      s.lastNotificationTime + throttleIntervalMs ≤ t := by
  induction cs with
  | nil => intro s t h; exact absurd h (List.not_mem_nil t)
  | cons c cs ih =>
    intro s t h
    unfold sendTimes at h
    by_cases hs : callSent s c = true
    · rw [if_pos hs] at h
      rcases List.mem_cons.mp h with rfl | h2
      · exact (callSent_step s c hs).1
      · have h4 := ih (managerStep s c) t h2
        have h5 := callSent_step s c hs
        have hI : (0:ℤ) ≤ throttleIntervalMs := by rw [throttleIntervalMs]; omega
        omega
    · rw [if_neg hs] at h
      have h4 := ih (managerStep s c) t h
      rw [callNotSent_step s c (Bool.eq_false_iff.mpr hs)] at h4
      exact h4

/-- Consecutive send times are at least a throttle interval apart. -/
theorem sendTimes_chain (cs : List ManagerCall) :
    ∀ s : NotificationManagerState,
      List.Chain' (fun a b => a + throttleIntervalMs ≤ b) (sendTimes s cs) := by
  induction cs with
  | nil => intro s; exact List.chain'_nil
  | cons c cs ih =>
    intro s
    unfold sendTimes
    by_cases hs : callSent s c = true
    · rw [if_pos hs]
      rw [List.chain'_cons']
      refine ⟨?_, ih (managerStep s c)⟩
      intro y hy
      have hmem := List.mem_of_mem_head? hy
      have := mem_sendTimes_lower cs (managerStep s c) y hmem
      rw [(callSent_step s c hs).2] at this
      exact this
    · rw [if_neg hs]
      exact ih (managerStep s c)

/-- C4: a manager call made less than `throttleIntervalMs` after the last
successful notification sends nothing (`false`, respectively `[]`) and leaves
the state unchanged; consequently, along any call sequence, any two calls
that send notifications are at least 30 seconds apart. -/
theorem notification_throttle (s : NotificationManagerState) (now : ℤ)
    (flight : Flight) (flights : List Flight) (sendOk : Bool)
    (sendOks : Flight → Bool) (s₀ : NotificationManagerState)
    (calls : List ManagerCall)
    (h : now - s.lastNotificationTime < throttleIntervalMs) :
    notifyFlightDetected s now flight sendOk = (false, s) ∧
    notifyFlightsDetected s now flights sendOks = ([], s) ∧
    List.Pairwise (fun a b => a + throttleIntervalMs ≤ b) (sendTimes s₀ calls) := by
  have hshould : shouldSendNotification s now = false := by
    rw [shouldSendNotification]
    exact decide_eq_false (by omega)
  refine ⟨?_, ?_, ?_⟩
  · unfold notifyFlightDetected
    by_cases h1 : s.notificationsEnabled = false
    · rw [if_pos h1]
    · rw [if_neg h1, if_pos hshould]
  · unfold notifyFlightsDetected
    by_cases h1 : s.notificationsEnabled = false ∨ flights.length = 0
    · rw [if_pos h1]
    · rw [if_neg h1, if_pos hshould]
  · haveI : IsTrans ℤ (fun a b => a + throttleIntervalMs ≤ b) := by
      constructor
      intro a b c hab hbc
      simp only [] at hab hbc ⊢
      have hI : (0:ℤ) ≤ throttleIntervalMs := by rw [throttleIntervalMs]; omega
      omega
    exact List.chain'_iff_pairwise.mp (sendTimes_chain calls s₀)

/-- Closed witness for C4: a throttled call is a no-op, and the send times of
a concrete call sequence are pairwise 30 seconds apart. -/
theorem notification_throttle_witness :
    notifyFlightDetected ⟨0, true⟩ 100 (sampleFlight (("a")) 0) true =
      (false, ⟨0, true⟩) ∧
    notifyFlightsDetected ⟨0, true⟩ 100 [sampleFlight (("a")) 0]
      (fun _ => true) = ([], ⟨0, true⟩) ∧
    List.Pairwise (fun a b => a + throttleIntervalMs ≤ b)
      (sendTimes ⟨0, true⟩
        [ManagerCall.single 30000 (sampleFlight (("a")) 0) true,
         ManagerCall.single 40000 (sampleFlight (("a")) 0) true,
         ManagerCall.batch 70000 [sampleFlight (("b")) 5] (fun _ => true)]) :=
  notification_throttle ⟨0, true⟩ 100 (sampleFlight (("a")) 0)
    [sampleFlight (("a")) 0] true (fun _ => true) ⟨0, true⟩ _ (by decide)

/-- C10: a non-throttled, enabled batch call attempts at most three
notifications, chosen as the lowest-altitude flights (an ascending sort of the
input), and returns exactly the attempted flights whose notification call
succeeded, in sorted order. -/
theorem notifyFlightsDetected_batch (s : NotificationManagerState) (now : ℤ)
    (flights : List Flight) (sendOk : Flight → Bool)
    (henabled : s.notificationsEnabled = true)
    (hthrottle : shouldSendNotification s now = true)
    (hne : flights ≠ []) :
    ∃ sorted : List Flight,
      sorted.Perm flights ∧
      sorted.Sorted (fun a b => a.altitude ≤ b.altitude) ∧
      (notifyFlightsDetected s now flights sendOk).1 =
        (sorted.take maxNotificationsPerBatch).filter sendOk ∧
      (sorted.take maxNotificationsPerBatch).length ≤ maxNotificationsPerBatch := by
  refine ⟨flights.mergeSort (fun a b => decide (a.altitude ≤ b.altitude)),
    List.mergeSort_perm flights _, ?_, ?_, List.length_take_le _ _⟩
  · have hsorted := @List.sorted_mergeSort Flight
      (fun a b => decide (a.altitude ≤ b.altitude))
      (fun a b c hab hbc => by
        rw [decide_eq_true_iff] at hab hbc ⊢
        exact le_trans hab hbc)
      (fun a b => by
        rcases le_total a.altitude b.altitude with h | h
        · simp [h]
        · simp [h])
      flights
    exact hsorted.imp (fun hx => by simpa using hx)
  · unfold notifyFlightsDetected
    rw [if_neg (by
      rintro (h1 | h1)
      · rw [henabled] at h1
        exact absurd h1 (by simp)
      · exact hne (List.length_eq_zero.mp h1))]
    rw [if_neg (by rw [hthrottle]; simp)]
    simp only []
    split
    · rfl
    · rfl

/-- Closed witness for C10 at a concrete batch. -/
theorem notifyFlightsDetected_batch_witness :
    ∃ sorted : List Flight,
      sorted.Perm [sampleFlight (("a")) 100, sampleFlight (("b")) 50] ∧
      sorted.Sorted (fun a b => a.altitude ≤ b.altitude) ∧
      (notifyFlightsDetected ⟨0, true⟩ 30000
        [sampleFlight (("a")) 100, sampleFlight (("b")) 50] (fun _ => true)).1 =
        (sorted.take maxNotificationsPerBatch).filter (fun _ => true) ∧
      (sorted.take maxNotificationsPerBatch).length ≤ maxNotificationsPerBatch :=
  notifyFlightsDetected_batch ⟨0, true⟩ 30000
    [sampleFlight (("a")) 100, sampleFlight (("b")) 50] (fun _ => true)
    rfl (by decide) (by decide)

/-! ## NotificationService dedup set (src/data/services/NotificationService.ts)

`showFlightNotification` keeps a `sentNotifications` set of flight ids; a
`setTimeout` scheduled at post time deletes the id after the notification
duration.  The set is modelled with each id's scheduled eviction deadline,
and the single-threaded event loop is modelled by running every due timer
callback before the next call: entries whose deadline has been reached are
dropped at the start of a call. -/

/-- `NotificationService.calculateNotificationDuration`: base 60 s plus 30 s
per 10 000 feet of altitude, capped at 3 extra minutes. -/
def calculateNotificationDuration (flight : Flight) : ℚ :=
  60 * 1000 + min 3 (flight.altitude / 10000) * 30 * 1000

/-- `sentNotifications` with each entry's scheduled eviction deadline. -/
structure NotificationServiceState where
  sentNotifications : List (String × ℚ)
  deriving DecidableEq

/-- Fresh `NotificationService` instance. -/
def NotificationServiceState.initial : NotificationServiceState := ⟨[]⟩

/-- Run the timer callbacks due by `now`: entries at or past their deadline
are deleted from the sent set. -/
def processTimers (now : ℚ) (sent : List (String × ℚ)) : List (String × ℚ) :=
  sent.filter (fun p => now < p.2)

/-- `NotificationService.showFlightNotification` at clock reading `now`: skip
the flight when its id is in the sent set (no system notification posted);
otherwise post it, add the id and schedule its eviction after the
notification duration.  The boolean records whether a notification was
posted. -/
def showFlightNotification (st : NotificationServiceState) (now : ℚ)
    (flight : Flight) : Bool × NotificationServiceState :=
  let sent := processTimers now st.sentNotifications
  if (sent.map Prod.fst).contains flight.id then
    (false, ⟨sent⟩)
  else
    (true, ⟨sent ++ [(flight.id, now + calculateNotificationDuration flight)]⟩)

/-- A sequence of `showFlightNotification` calls (clock reading and flight). -/
def runService (st : NotificationServiceState) :
    List (ℚ × Flight) → NotificationServiceState
  | [] => st
  | a :: as => runService (showFlightNotification st a.1 a.2).2 as

/-- A sent-set entry survives any call made before its eviction deadline. -/
theorem sent_entry_persists (st : NotificationServiceState) (now : ℚ)
    (g : Flight) (fid : String) (e : ℚ)
    (hmem : (fid, e) ∈ st.sentNotifications) (hnow : now < e) :
    (fid, e) ∈ (showFlightNotification st now g).2.sentNotifications := by
  have hkeep : (fid, e) ∈ processTimers now st.sentNotifications :=
    List.mem_filter.mpr ⟨hmem, by simpa using hnow⟩
  unfold showFlightNotification
  by_cases h : ((processTimers now st.sentNotifications).map Prod.fst).contains g.id
  · rw [if_pos h]
    exact hkeep
  · rw [if_neg h]
    exact List.mem_append_left _ hkeep

/-- A call for a flight whose id has an unexpired sent-set entry posts
nothing. -/
theorem sent_entry_suppresses (st : NotificationServiceState) (now : ℚ)
    (f : Flight) (e : ℚ)
    (hmem : (f.id, e) ∈ st.sentNotifications) (hnow : now < e) :
    (showFlightNotification st now f).1 = false := by
  have hkeep : (f.id, e) ∈ processTimers now st.sentNotifications :=
    List.mem_filter.mpr ⟨hmem, by simpa using hnow⟩
  have hcontains : ((processTimers now st.sentNotifications).map Prod.fst).contains f.id
      = true := by
    have : f.id ∈ (processTimers now st.sentNotifications).map Prod.fst :=
      List.mem_map_of_mem Prod.fst hkeep
    simpa using this
  unfold showFlightNotification
  rw [if_pos hcontains]

/-- A sent-set entry survives a whole run of calls all made before its
eviction deadline. -/
theorem sent_entry_persists_run (as : List (ℚ × Flight)) :
    ∀ (st : NotificationServiceState) (fid : String) (e : ℚ),
      (fid, e) ∈ st.sentNotifications → (∀ a ∈ as, a.1 < e) →
      (fid, e) ∈ (runService st as).sentNotifications := by
  induction as with
  | nil => intro st fid e hmem _; exact hmem
  | cons a as ih =>
    intro st fid e hmem has
    unfold runService
    exact ih _ fid e
      (sent_entry_persists st a.1 a.2 fid e hmem (has a (List.mem_cons_self a as)))
      (fun b hb => has b (List.mem_cons_of_mem a hb))

/-- After posting, the state holds the flight's entry with deadline
`now + duration`, appended to a processed set free of that id. -/
theorem showFlightNotification_posted (st : NotificationServiceState) (now : ℚ)
    (f : Flight) (hpost : (showFlightNotification st now f).1 = true) :
    (showFlightNotification st now f).2.sentNotifications =
      processTimers now st.sentNotifications ++
        [(f.id, now + calculateNotificationDuration f)] ∧
    f.id ∉ (processTimers now st.sentNotifications).map Prod.fst := by
  by_cases h : ((processTimers now st.sentNotifications).map Prod.fst).contains f.id
  · have hfalse : (showFlightNotification st now f).1 = false := by
      unfold showFlightNotification
      rw [if_pos h]
    rw [hpost] at hfalse
    exact absurd hfalse (by simp)
  · constructor
    · show (showFlightNotification st now f).2.sentNotifications = _
      unfold showFlightNotification
      rw [if_neg h]
    · intro hmem
      exact h (by simpa using hmem)

/-- C5: once a notification for flight `f` is posted at time `t`, every later
attempt for `f` before the eviction deadline `t + duration f` posts nothing,
regardless of interleaved attempts for other flights; and the entry is
evicted at the deadline, after which an attempt for `f` posts again. -/
theorem notification_dedup_until_eviction (st : NotificationServiceState)
    (t : ℚ) (f : Flight) (as : List (ℚ × Flight)) (t' t'' : ℚ)
    (hpost : (showFlightNotification st t f).1 = true)
    (has : ∀ a ∈ as, a.1 < t + calculateNotificationDuration f)
    (ht' : t' < t + calculateNotificationDuration f)
    (ht'' : t + calculateNotificationDuration f ≤ t'') :
    (showFlightNotification
      (runService (showFlightNotification st t f).2 as) t' f).1 = false ∧
    (showFlightNotification (showFlightNotification st t f).2 t'' f).1 = true := by
  obtain ⟨heq, hnotin⟩ := showFlightNotification_posted st t f hpost
  constructor
  · have hmem0 : (f.id, t + calculateNotificationDuration f) ∈
        (showFlightNotification st t f).2.sentNotifications := by
      rw [heq]
      exact List.mem_append_right _ (List.mem_cons_self _ _)
    exact sent_entry_suppresses _ t' f _
      (sent_entry_persists_run as _ f.id _ hmem0 has) ht'
  · unfold showFlightNotification
    rw [if_neg ?_]
    intro hcontains
    replace hcontains : f.id ∈ (processTimers t''
        (showFlightNotification st t f).2.sentNotifications).map Prod.fst := by
      simpa using hcontains
    rw [List.mem_map] at hcontains
    obtain ⟨p, hp, hpid⟩ := hcontains
    rw [show processTimers t'' (showFlightNotification st t f).2.sentNotifications =
      ((showFlightNotification st t f).2.sentNotifications).filter
        (fun q => t'' < q.2) from rfl, List.mem_filter, heq, List.mem_append] at hp
    rcases hp with ⟨hin | hin, hlt⟩
    · exact hnotin (hpid ▸ List.mem_map_of_mem Prod.fst hin)
    · rw [List.mem_singleton] at hin
      rw [hin] at hlt
      replace hlt : t'' < t + calculateNotificationDuration f := by simpa using hlt
      exact absurd hlt (not_lt.mpr ht'')

/-- Closed witness for C5 at a concrete post and attempt times. -/
theorem notification_dedup_until_eviction_witness :
    (showFlightNotification
      (runService (showFlightNotification NotificationServiceState.initial 0
        (sampleFlight (("a")) 0)).2 []) 1 (sampleFlight (("a")) 0)).1 = false ∧
    (showFlightNotification (showFlightNotification NotificationServiceState.initial 0
      (sampleFlight (("a")) 0)).2 60000 (sampleFlight (("a")) 0)).1 = true :=
  notification_dedup_until_eviction NotificationServiceState.initial 0
    (sampleFlight (("a")) 0) [] 1 60000 (by decide)
    (fun a ha => absurd ha (List.not_mem_nil a))
    (by norm_num [calculateNotificationDuration, sampleFlight])
    (by norm_num [calculateNotificationDuration, sampleFlight])

/-! ## AircraftTypeDatabase (src/data/services/AircraftTypeDatabase.ts)

JavaScript string operations on the ASCII data of the database are modelled
over the character lists of Lean strings: `toUpperCase` as `Char.toUpper`,
`startsWith` as list prefix, `includes` as list infix occurrence.  The
insertion-ordered `Map` of aircraft types is the association list of the
`addAircraftType` calls of `loadCommonAircraftTypes`, keyed by ICAO code. -/

/-- JavaScript `String.prototype.toUpperCase` on ASCII data. -/
def jsToUpper (s : String) : String := s.map Char.toUpper

/-- JavaScript `String.prototype.startsWith`. -/
def jsStartsWith (s pre : String) : Bool := pre.data.isPrefixOf s.data

/-- Occurrence of `sub` as a contiguous run inside `l`. -/
def containsSub (l sub : List Char) : Bool :=
  match l with
  | [] => sub.isEmpty
  | c :: t => sub.isPrefixOf (c :: t) || containsSub t sub

/-- JavaScript `String.prototype.includes`: `sub` occurs in `s`. -/
def jsIncludes (s sub : String) : Bool := containsSub s.data sub.data

/-- `AircraftCategory` enum. -/
inductive AircraftCategory where
  | commercialJet
  | regionalJet
  | turboprop
  | privateAircraft
  | helicopter
  | military
  | other
  deriving DecidableEq

/-- `AircraftType` record. -/
structure AircraftType where
  icaoCode : String
  manufacturer : String
  model : String
  category : AircraftCategory
  imageIds : List String
  description : Option String
  deriving DecidableEq

/-- The `defaultTypes` record: generic default aircraft per category. -/
def defaultTypes : AircraftCategory → AircraftType
  | .commercialJet =>
    { icaoCode := ("COMM"), manufacturer := ("Generic"),
      model := ("Commercial Jet"), category := .commercialJet,
      imageIds := [("commercial-jet-generic")], description := none }
  | .regionalJet =>
    { icaoCode := ("REGN"), manufacturer := ("Generic"),
      model := ("Regional Jet"), category := .regionalJet,
      imageIds := [("regional-jet-generic")], description := none }
  | .turboprop =>
    { icaoCode := ("TURB"), manufacturer := ("Generic"),
      model := ("Turboprop"), category := .turboprop,
      imageIds := [("turboprop-generic")], description := none }
  | .privateAircraft =>
    { icaoCode := ("PRIV"), manufacturer := ("Generic"),
      model := ("Private Aircraft"), category := .privateAircraft,
      imageIds := [("private-aircraft-generic")], description := none }
  | .helicopter =>
    { icaoCode := ("HELI"), manufacturer := ("Generic"),
      model := ("Helicopter"), category := .helicopter,
      imageIds := [("helicopter-generic")], description := none }
  | .military =>
    { icaoCode := ("MILI"), manufacturer := ("Generic"),
      model := ("Military Aircraft"), category := .military,
      imageIds := [("military-aircraft-generic")], description := none }
  | .other =>
    { icaoCode := ("OTHR"), manufacturer := ("Generic"),
      model := ("Aircraft"), category := .other,
      imageIds := [("aircraft-generic")], description := none }

/-- The aircraft types loaded by `loadCommonAircraftTypes`, in insertion
order. -/
def aircraftTypesEntries : List AircraftType :=
  [ { icaoCode := ("B737"), manufacturer := ("Boeing"), model := ("737"),
      category := .commercialJet, imageIds := [("boeing-737"), ("b737-generic")],
      description := some ("Boeing 737 narrow-body aircraft") },
    { icaoCode := ("B738"), manufacturer := ("Boeing"), model := ("737-800"),
      category := .commercialJet,
      imageIds := [("boeing-737-800"), ("b737-800"), ("b737")],
      description := some ("Boeing 737-800 narrow-body aircraft") },
    { icaoCode := ("B739"), manufacturer := ("Boeing"), model := ("737-900"),
      category := .commercialJet,
      imageIds := [("boeing-737-900"), ("b737-900"), ("b737")],
      description := some ("Boeing 737-900 narrow-body aircraft") },
    { icaoCode := ("B744"), manufacturer := ("Boeing"), model := ("747-400"),
      category := .commercialJet,
      imageIds := [("boeing-747-400"), ("b747-400"), ("b747")],
      description := some ("Boeing 747-400 wide-body aircraft") },
    { icaoCode := ("B748"), manufacturer := ("Boeing"), model := ("747-8"),
      category := .commercialJet,
      imageIds := [("boeing-747-8"), ("b747-8"), ("b747")],
      description := some ("Boeing 747-8 wide-body aircraft") },
    { icaoCode := ("B752"), manufacturer := ("Boeing"), model := ("757-200"),
      category := .commercialJet,
      imageIds := [("boeing-757-200"), ("b757-200"), ("b757")],
      description := some ("Boeing 757-200 narrow-body aircraft") },
    { icaoCode := ("B763"), manufacturer := ("Boeing"), model := ("767-300"),
      category := .commercialJet,
      imageIds := [("boeing-767-300"), ("b767-300"), ("b767")],
      description := some ("Boeing 767-300 wide-body aircraft") },
    { icaoCode := ("B77W"), manufacturer := ("Boeing"), model := ("777-300ER"),
      category := .commercialJet,
      imageIds := [("boeing-777-300er"), ("b777-300er"), ("b777")],
      description := some ("Boeing 777-300ER wide-body aircraft") },
    { icaoCode := ("B788"), manufacturer := ("Boeing"), model := ("787-8"),
      category := .commercialJet,
      imageIds := [("boeing-787-8"), ("b787-8"), ("b787")],
      description := some ("Boeing 787-8 Dreamliner wide-body aircraft") },
    { icaoCode := ("B789"), manufacturer := ("Boeing"), model := ("787-9"),
      category := .commercialJet,
      imageIds := [("boeing-787-9"), ("b787-9"), ("b787")],
      description := some ("Boeing 787-9 Dreamliner wide-body aircraft") },
    { icaoCode := ("A319"), manufacturer := ("Airbus"), model := ("A319"),
      category := .commercialJet, imageIds := [("airbus-a319"), ("a319")],
      description := some ("Airbus A319 narrow-body aircraft") },
    { icaoCode := ("A320"), manufacturer := ("Airbus"), model := ("A320"),
      category := .commercialJet, imageIds := [("airbus-a320"), ("a320")],
      description := some ("Airbus A320 narrow-body aircraft") },
    { icaoCode := ("A321"), manufacturer := ("Airbus"), model := ("A321"),
      category := .commercialJet, imageIds := [("airbus-a321"), ("a321")],
      description := some ("Airbus A321 narrow-body aircraft") },
    { icaoCode := ("A332"), manufacturer := ("Airbus"), model := ("A330-200"),
      category := .commercialJet,
      imageIds := [("airbus-a330-200"), ("a330-200"), ("a330")],
      description := some ("Airbus A330-200 wide-body aircraft") },
    { icaoCode := ("A333"), manufacturer := ("Airbus"), model := ("A330-300"),
      category := .commercialJet,
      imageIds := [("airbus-a330-300"), ("a330-300"), ("a330")],
      description := some ("Airbus A330-300 wide-body aircraft") },
    { icaoCode := ("A359"), manufacturer := ("Airbus"), model := ("A350-900"),
      category := .commercialJet,
      imageIds := [("airbus-a350-900"), ("a350-900"), ("a350")],
      description := some ("Airbus A350-900 wide-body aircraft") },
    { icaoCode := ("A388"), manufacturer := ("Airbus"), model := ("A380-800"),
      category := .commercialJet,
      imageIds := [("airbus-a380-800"), ("a380-800"), ("a380")],
      description := some ("Airbus A380-800 wide-body aircraft") },
    { icaoCode := ("CRJ2"), manufacturer := ("Bombardier"), model := ("CRJ-200"),
      category := .regionalJet,
      imageIds := [("bombardier-crj-200"), ("crj-200"), ("crj")],
      description := some ("Bombardier CRJ-200 regional jet") },
    { icaoCode := ("CRJ7"), manufacturer := ("Bombardier"), model := ("CRJ-700"),
      category := .regionalJet,
      imageIds := [("bombardier-crj-700"), ("crj-700"), ("crj")],
      description := some ("Bombardier CRJ-700 regional jet") },
    { icaoCode := ("CRJ9"), manufacturer := ("Bombardier"), model := ("CRJ-900"),
      category := .regionalJet,
      imageIds := [("bombardier-crj-900"), ("crj-900"), ("crj")],
      description := some ("Bombardier CRJ-900 regional jet") },
    { icaoCode := ("E170"), manufacturer := ("Embraer"), model := ("E170"),
      category := .regionalJet, imageIds := [("embraer-e170"), ("e170")],
      description := some ("Embraer E170 regional jet") },
    { icaoCode := ("E190"), manufacturer := ("Embraer"), model := ("E190"),
      category := .regionalJet, imageIds := [("embraer-e190"), ("e190")],
      description := some ("Embraer E190 regional jet") },
    { icaoCode := ("DH8D"), manufacturer := ("Bombardier"), model := ("Dash 8 Q400"),
      category := .turboprop,
      imageIds := [("bombardier-dash-8-q400"), ("dash-8-q400"), ("dash-8")],
      description := some ("Bombardier Dash 8 Q400 turboprop") },
    { icaoCode := ("AT76"), manufacturer := ("ATR"), model := ("ATR 72-600"),
      category := .turboprop, imageIds := [("atr-72-600"), ("atr-72"), ("atr")],
      description := some ("ATR 72-600 turboprop") },
    { icaoCode := ("C172"), manufacturer := ("Cessna"), model := ("172 Skyhawk"),
      category := .privateAircraft, imageIds := [("cessna-172"), ("c172")],
      description := some ("Cessna 172 Skyhawk single-engine private aircraft") },
    { icaoCode := ("C208"), manufacturer := ("Cessna"), model := ("208 Caravan"),
      category := .privateAircraft,
      imageIds := [("cessna-208"), ("cessna-caravan"), ("c208")],
      description := some ("Cessna 208 Caravan utility aircraft") },
    { icaoCode := ("R44"), manufacturer := ("Robinson"), model := ("R44"),
      category := .helicopter, imageIds := [("robinson-r44"), ("r44")],
      description := some ("Robinson R44 light helicopter") },
    { icaoCode := ("EC35"), manufacturer := ("Airbus"), model := ("EC135"),
      category := .helicopter, imageIds := [("airbus-ec135"), ("ec135")],
      description := some ("Airbus EC135 utility helicopter") },
    { icaoCode := ("F16"), manufacturer := ("Lockheed Martin"),
      model := ("F-16 Fighting Falcon"), category := .military,
      imageIds := [("f-16"), ("f16")],
      description := some ("F-16 Fighting Falcon fighter aircraft") },
    { icaoCode := ("C130"), manufacturer := ("Lockheed Martin"),
      model := ("C-130 Hercules"), category := .military,
      imageIds := [("c-130"), ("c130"), ("hercules")],
      description := some ("C-130 Hercules military transport aircraft") } ]

/-- The insertion-ordered `aircraftTypes` map, keyed by ICAO code as in
`addAircraftType`. -/
def aircraftTypesList : List (String × AircraftType) :=
  aircraftTypesEntries.map (fun t => (t.icaoCode, t))

/-- `AircraftTypeDatabase.getDefaultType`. -/
def getDefaultType (category : AircraftCategory) : AircraftType :=
  defaultTypes category

/-- `AircraftTypeDatabase.lookupByIcaoCode`: direct map lookup on the
uppercased code, then the first entry whose code is a prefix of the query or
vice versa. -/
def lookupByIcaoCode (icaoCode : String) : Option AircraftType :=
  if icaoCode = ("") then none
  else
    let normalizedCode := jsToUpper icaoCode
    match aircraftTypesList.lookup normalizedCode with
    | some t => some t
    | none =>
        aircraftTypesList.findSome? (fun p =>
          if jsStartsWith normalizedCode p.1 || jsStartsWith p.1 normalizedCode then
            some p.2
          else none)

/-- `AircraftTypeDatabase.lookupByModelName`: first entry whose model name
matches, contains or is contained in the query, or whose
"manufacturer model" contains the query. -/
def lookupByModelName (modelName : String) : Option AircraftType :=
  if modelName = ("") then none
  else
    let normalizedName := jsToUpper modelName
    aircraftTypesList.findSome? (fun p =>
      let typeModel := jsToUpper p.2.model
      let typeManufacturer := jsToUpper p.2.manufacturer
      if typeModel = normalizedName || jsIncludes typeModel normalizedName ||
          jsIncludes normalizedName typeModel ||
          jsIncludes (typeManufacturer ++ (" ") ++ typeModel) normalizedName then
        some p.2
      else none)

/-- `AircraftTypeDatabase.lookupSimilar`: ICAO lookup, then model lookup,
then manufacturer/category heuristics, finally the generic OTHER default. -/
def lookupSimilar (query : String) : Option AircraftType :=
  if query = ("") then none
  else
    match lookupByIcaoCode query with
    | some t => some t
    | none =>
    match lookupByModelName query with
    | some t => some t
    | none =>
      let normalizedQuery := jsToUpper query
      if jsIncludes normalizedQuery (("BOEING")) ||
          jsStartsWith normalizedQuery (("B7")) ||
          jsStartsWith normalizedQuery (("B-7")) then
        some (getDefaultType AircraftCategory.commercialJet)
      else if jsIncludes normalizedQuery (("AIRBUS")) ||
          jsStartsWith normalizedQuery (("A3")) ||
          jsStartsWith normalizedQuery (("A-3")) then
        some (getDefaultType AircraftCategory.commercialJet)
      else if jsIncludes normalizedQuery (("HELI")) ||
          jsIncludes normalizedQuery (("ROTOR")) ||
          jsStartsWith normalizedQuery (("R22")) ||
          jsStartsWith normalizedQuery (("R44")) then
        some (getDefaultType AircraftCategory.helicopter)
      else if jsIncludes normalizedQuery (("MILITARY")) ||
          jsIncludes normalizedQuery (("FIGHT")) ||
          jsStartsWith normalizedQuery (("F-")) then
        some (getDefaultType AircraftCategory.military)
      else if jsIncludes normalizedQuery (("CRJ")) ||
          jsIncludes normalizedQuery (("ERJ")) ||
          jsIncludes normalizedQuery (("EMB")) then
        some (getDefaultType AircraftCategory.regionalJet)
      else if jsIncludes normalizedQuery (("CESS")) ||
          jsIncludes normalizedQuery (("PIPER")) ||
          jsIncludes normalizedQuery (("BEECH")) then
        some (getDefaultType AircraftCategory.privateAircraft)
      else
        some (getDefaultType AircraftCategory.other)

/-- `AircraftImageService.lookupAircraftTypeInfo`: empty or `Unknown` type
resolves to nothing; otherwise ICAO lookup, then model-name lookup, then
similarity lookup. -/
def lookupAircraftTypeInfo (aircraftType : String) : Option AircraftType :=
  if aircraftType = ("") ∨ aircraftType = (("Unknown")) then none
  else
    match lookupByIcaoCode aircraftType with
    | some t => some t
    | none =>
    match lookupByModelName aircraftType with
    | some t => some t
    | none => lookupSimilar aircraftType

/-- For a non-empty query, `lookupSimilar` always produces a type: every
heuristic branch and the final fallback return a category default. -/
theorem lookupSimilar_isSome (q : String) (hq : q ≠ ("")) :
    (lookupSimilar q).isSome := by
  unfold lookupSimilar
  rw [if_neg hq]
  cases lookupByIcaoCode q with
  | some t => rfl
  | none =>
    cases lookupByModelName q with
    | some t => rfl
    | none =>
      simp only []
      split
      · rfl
      split
      · rfl
      split
      · rfl
      split
      · rfl
      split
      · rfl
      split
      · rfl
      rfl

/-- C8: a non-empty aircraft type other than `Unknown` resolves through the
fallback chain (ICAO code first, then model name, then similarity), the
similarity lookup never fails on a non-empty query, and hence the resolver
always produces a type for such input. -/
theorem image_resolver_fallback_chain (q t : String) (x : AircraftType)
    (hq : q ≠ ("")) (ht1 : t ≠ ("")) (ht2 : t ≠ (("Unknown"))) :
    (lookupSimilar q).isSome ∧
    (lookupAircraftTypeInfo t).isSome ∧
    (lookupByIcaoCode t = some x → lookupAircraftTypeInfo t = some x) ∧
    (lookupByIcaoCode t = none → lookupByModelName t = some x →
      lookupAircraftTypeInfo t = some x) ∧
    (lookupByIcaoCode t = none → lookupByModelName t = none →
      lookupAircraftTypeInfo t = lookupSimilar t) := by
  have hcond : ¬(t = ("") ∨ t = (("Unknown"))) := by
    rintro (h | h)
    · exact ht1 h
    · exact ht2 h
  refine ⟨lookupSimilar_isSome q hq, ?_, ?_, ?_, ?_⟩
  · unfold lookupAircraftTypeInfo
    rw [if_neg hcond]
    cases lookupByIcaoCode t with
    | some y => rfl
    | none =>
      cases lookupByModelName t with
      | some y => rfl
      | none => exact lookupSimilar_isSome t ht1
  · intro hIcao
    unfold lookupAircraftTypeInfo
    rw [if_neg hcond, hIcao]
  · intro hIcao hModel
    unfold lookupAircraftTypeInfo
    rw [if_neg hcond, hIcao, hModel]
  · intro hIcao hModel
    unfold lookupAircraftTypeInfo
    rw [if_neg hcond, hIcao, hModel]

/-- Closed witness for C8 at concrete query strings. -/
theorem image_resolver_fallback_chain_witness :
    (lookupSimilar (("ZZ99"))).isSome ∧
    (lookupAircraftTypeInfo (("B737"))).isSome ∧
    (lookupByIcaoCode (("B737")) = some (getDefaultType AircraftCategory.other) →
      lookupAircraftTypeInfo (("B737")) =
        some (getDefaultType AircraftCategory.other)) ∧
    (lookupByIcaoCode (("B737")) = none →
      lookupByModelName (("B737")) = some (getDefaultType AircraftCategory.other) →
      lookupAircraftTypeInfo (("B737")) =
        some (getDefaultType AircraftCategory.other)) ∧
    (lookupByIcaoCode (("B737")) = none → lookupByModelName (("B737")) = none →
      lookupAircraftTypeInfo (("B737")) = lookupSimilar (("B737"))) :=
  image_resolver_fallback_chain (("ZZ99")) (("B737"))
    (getDefaultType AircraftCategory.other) (by decide) (by decide) (by decide)

/-! ## FlightApiRepository geometry (src/data/repositories/FlightApiRepository.ts)

Coordinates carried by the data are rationals (JavaScript doubles); the
trigonometry of `calculateDistance` is interpreted over `ℝ`. -/

/-- `FlightApiRepository.toRadians`. -/
noncomputable def toRadians (degrees : ℝ) : ℝ := degrees * (Real.pi / 180)

/-- JavaScript `Math.atan2`. -/
noncomputable def jsAtan2 (y x : ℝ) : ℝ :=
  if 0 < x then Real.arctan (y / x)
  else if x < 0 then
    (if 0 ≤ y then Real.arctan (y / x) + Real.pi else Real.arctan (y / x) - Real.pi)
  else
    (if 0 < y then Real.pi / 2 else if y < 0 then -(Real.pi / 2) else 0)

/-- `FlightApiRepository.calculateDistance`: Haversine distance with Earth
radius 6371 km. -/
noncomputable def calculateDistance (lat1 lon1 lat2 lon2 : ℝ) : ℝ :=
  let dLat := toRadians (lat2 - lat1)
  let dLon := toRadians (lon2 - lon1)
  let a := Real.sin (dLat / 2) * Real.sin (dLat / 2) +
    Real.cos (toRadians lat1) * Real.cos (toRadians lat2) *
      Real.sin (dLon / 2) * Real.sin (dLon / 2)
  let c := 2 * jsAtan2 (Real.sqrt a) (Real.sqrt (1 - a))
  6371 * c

open scoped Classical in
/-- `FlightApiRepository.filterByRadius`: keep the flights whose Haversine
distance from the center is at most `radiusKm`. -/
noncomputable def filterByRadius (flights : List Flight)
    (centerLat centerLon radiusKm : ℚ) : List Flight :=
  flights.filter (fun flight =>
    decide (calculateDistance (centerLat : ℝ) (centerLon : ℝ)
      (flight.latitude : ℝ) (flight.longitude : ℝ) ≤ (radiusKm : ℝ)))

/-- Latitude half-height of the bounding box queried by `getNearbyAircraft`:
one degree of latitude taken as 111 km. -/
noncomputable def latOffset (radiusKm : ℝ) : ℝ := radiusKm / 111

/-- Longitude half-width of the bounding box queried by `getNearbyAircraft`:
one degree of longitude taken as `111 * cos latitude` km. -/
noncomputable def lonOffset (latitude radiusKm : ℝ) : ℝ :=
  radiusKm / (111 * Real.cos (toRadians latitude))

/-- Membership in the bounding box `[minLat, maxLat] × [minLon, maxLon]`
queried by `getNearbyAircraft`. -/
def inBoundingBox (latitude longitude radiusKm plat plon : ℝ) : Prop :=
  latitude - latOffset radiusKm ≤ plat ∧ plat ≤ latitude + latOffset radiusKm ∧
  longitude - lonOffset latitude radiusKm ≤ plon ∧
  plon ≤ longitude + lonOffset latitude radiusKm

/-- The claim that the queried bounding box contains every point within
`radiusKm` of the user position, for every position with latitude strictly
between -90 and 90 and every positive radius. -/
def boundingBoxContainsRadius : Prop :=
  ∀ latitude longitude radiusKm plat plon : ℝ,
    -90 < latitude → latitude < 90 → 0 < radiusKm →
    calculateDistance latitude longitude plat plon ≤ radiusKm →
    inBoundingBox latitude longitude radiusKm plat plon

/-- `OpenSkyState` as used by `FlightMapper.toFlight` (src/data/services/
FlightApiService.ts); string fields that the mapper tests for truthiness keep
their string type, with the empty string as the falsy case. -/
structure OpenSkyState where
  icao24 : String
  callsign : String
  origin_country : String
  time_position : ℚ
  last_contact : ℚ
  longitude : ℚ
  latitude : ℚ
  baro_altitude : ℚ
  on_ground : Bool
  velocity : ℚ
  true_track : ℚ
  vertical_rate : ℚ
  geo_altitude : ℚ
  squawk : String
  spi : Bool
  position_source : ℚ

/-- JavaScript `Math.round`: round half toward positive infinity. -/
def jsRound (q : ℚ) : ℚ := ((⌊q + 1/2⌋ : ℤ) : ℚ)

/-- `FlightMapper.toFlight` (src/data/mappers/FlightMapper.ts).  The decimal
literals 3.28084 (meters to feet) and 1.94384 (m/s to knots) are read as
exact rationals; `x || 0` on a number is the identity once `undefined` is
excluded, since it maps 0 to 0. -/
def FlightMapper.toFlight (state : OpenSkyState) : Flight :=
  let callsign := if state.callsign = ("") then ("Unknown") else state.callsign.trim
  { id := state.icao24
    flightNumber := callsign
    aircraftType := ("Unknown")
    origin := ("Unknown")
    originCity := if state.origin_country = ("") then ("Unknown")
      else state.origin_country
    destination := ("Unknown")
    destinationCity := ("Unknown")
    altitude := if state.baro_altitude ≠ 0 then
        jsRound (state.baro_altitude * (328084/100000 : ℚ))
      else 0
    heading := state.true_track
    speed := if state.velocity ≠ 0 then
        jsRound (state.velocity * (194384/100000 : ℚ))
      else 0
    latitude := state.latitude
    longitude := state.longitude
    timestamp := state.last_contact * 1000
    isOnGround := state.on_ground }

/-- `FlightMapper.toFlights`. -/
def FlightMapper.toFlights (states : List OpenSkyState) : List Flight :=
  states.map FlightMapper.toFlight

/-- The cache-miss path of `FlightApiRepository.getNearbyAircraft` after the
API call: map the returned states to flights and filter them by the radius.
The API response for the queried bounding box is passed in as
`aircraftStates`. -/
noncomputable def getNearbyAircraftOnMiss (latitude longitude radiusKm : ℚ)
    (aircraftStates : List OpenSkyState) : List Flight :=
  filterByRadius (FlightMapper.toFlights aircraftStates) latitude longitude radiusKm

/-- C2 (amended part): on a cache miss, `getNearbyAircraft` returns exactly
those mapped flights of the API response whose Haversine distance from the
user position is at most `radiusKm`, in response order. -/
theorem getNearbyAircraft_filter_exact (latitude longitude radiusKm : ℚ)
    (aircraftStates : List OpenSkyState) (f : Flight) :
    f ∈ getNearbyAircraftOnMiss latitude longitude radiusKm aircraftStates ↔
      f ∈ FlightMapper.toFlights aircraftStates ∧
      calculateDistance (latitude : ℝ) (longitude : ℝ)
        (f.latitude : ℝ) (f.longitude : ℝ) ≤ (radiusKm : ℝ) := by
  unfold getNearbyAircraftOnMiss filterByRadius
  rw [List.mem_filter]
  rw [decide_eq_true_iff]

/-- The Haversine distance from (60°, 0°) to (60°, 90°) evaluates to
`12742 * arctan √(1/7)`. -/
theorem dist_60_0_60_90 :
    calculateDistance 60 0 60 90 = 12742 * Real.arctan (Real.sqrt (1/7)) := by
  unfold calculateDistance toRadians jsAtan2
  simp only []
  have e1 : ((60:ℝ) - 60) * (Real.pi / 180) / 2 = 0 := by ring
  have e2 : ((90:ℝ) - 0) * (Real.pi / 180) / 2 = Real.pi / 4 := by ring
  rw [e1, e2, Real.sin_zero, Real.sin_pi_div_four]
  have e3 : (60:ℝ) * (Real.pi / 180) = Real.pi / 3 := by ring
  rw [e3, Real.cos_pi_div_three]
  have hs2 : Real.sqrt 2 * Real.sqrt 2 = 2 := Real.mul_self_sqrt (by norm_num)
  have e4 : (0:ℝ) * 0 + 1 / 2 * (1 / 2) * (Real.sqrt 2 / 2) * (Real.sqrt 2 / 2)
      = 1 / 8 := by
    linear_combination (1/16 : ℝ) * hs2
  rw [e4]
  have hpos : (0:ℝ) < Real.sqrt (1 - 1/8) := Real.sqrt_pos.mpr (by norm_num)
  rw [if_pos hpos]
  have e5 : Real.sqrt (1/8) / Real.sqrt (1 - 1/8) = Real.sqrt (1/7) := by
    rw [← Real.sqrt_div (by norm_num : (0:ℝ) ≤ 1/8)]
    norm_num
  rw [e5]
  ring

/-- Numerical bound: `arctan √(1/7) ≤ 2400/6371`, via `sin y > y - y³/4`. -/
theorem arctan_sqrt_inv_seven_le : Real.arctan (Real.sqrt (1/7)) ≤ 2400/6371 := by
  set y : ℝ := 2400/6371 with hy
  have hy0 : 0 < y := by norm_num [hy]
  have hy1 : y ≤ 1 := by norm_num [hy]
  have hpi : (3:ℝ) < Real.pi := Real.pi_gt_three
  have hypi : y < Real.pi / 2 := by
    rw [hy]; linarith
  have hsiny : 0 < Real.sin y := Real.sin_pos_of_pos_of_lt_pi hy0 (by linarith)
  have hsin : y - y^3/4 < Real.sin y := Real.sin_gt_sub_cube hy0 hy1
  have hsin2 : (1:ℝ)/8 ≤ Real.sin y ^ 2 := by
    have h1 : (y - y^3/4)^2 ≤ Real.sin y ^ 2 :=
      sq_le_sq' (by rw [hy] at hsin ⊢; nlinarith) (le_of_lt hsin)
    have h2 : (1:ℝ)/8 ≤ (y - y^3/4)^2 := by rw [hy]; norm_num
    linarith
  have hcos : 0 < Real.cos y :=
    Real.cos_pos_of_mem_Ioo ⟨by linarith, hypi⟩
  have htan : Real.sqrt (1/7) ≤ Real.tan y := by
    rw [Real.tan_eq_sin_div_cos, le_div_iff₀ hcos]
    have hsq7 : (Real.sqrt (1/7))^2 = 1/7 := Real.sq_sqrt (by norm_num)
    have hcossq : Real.cos y ^ 2 = 1 - Real.sin y ^ 2 := by
      have := Real.sin_sq_add_cos_sq y
      linarith
    have hlhs : (Real.sqrt (1/7) * Real.cos y)^2 ≤ Real.sin y ^ 2 := by
      calc (Real.sqrt (1/7) * Real.cos y)^2
          = (1/7) * Real.cos y ^ 2 := by rw [mul_pow, hsq7]
        _ = (1/7) * (1 - Real.sin y ^ 2) := by rw [hcossq]
        _ ≤ Real.sin y ^ 2 := by nlinarith [hsin2]
    have h0 : 0 ≤ Real.sqrt (1/7) * Real.cos y :=
      mul_nonneg (Real.sqrt_nonneg _) hcos.le
    nlinarith [hlhs, h0, hsiny]
  have harctan : Real.arctan (Real.sqrt (1/7)) ≤ Real.arctan (Real.tan y) :=
    Real.arctan_strictMono.monotone htan
  rwa [Real.arctan_tan (by linarith) hypi] at harctan

/-- C2 (counterexample): at user position (60°, 0°) with radius 4800 km —
legal inputs for the claim — the aircraft at (60°, 90°) lies within the
radius (distance ≈ 4604.5 km) but outside the queried bounding box (whose
longitude half-width is 9600/111 ≈ 86.5°), so the bounding box does not
contain every point within the radius. -/
theorem boundingBox_misses_point_within_radius :
    ((-90:ℝ) < 60 ∧ (60:ℝ) < 90 ∧ (0:ℝ) < 4800) ∧
    calculateDistance 60 0 60 90 ≤ 4800 ∧
    ¬ inBoundingBox 60 0 4800 60 90 ∧
    ¬ boundingBoxContainsRadius := by
  have hdist : calculateDistance 60 0 60 90 ≤ 4800 := by
    rw [dist_60_0_60_90]
    linarith [arctan_sqrt_inv_seven_le]
  have hnotbox : ¬ inBoundingBox 60 0 4800 60 90 := by
    rintro ⟨-, -, -, h4⟩
    rw [lonOffset] at h4
    have h3 : toRadians 60 = Real.pi / 3 := by rw [toRadians]; ring
    rw [h3, Real.cos_pi_div_three] at h4
    norm_num at h4
  exact ⟨by norm_num, hdist, hnotbox, fun hall =>
    hnotbox (hall 60 0 4800 60 90 (by norm_num) (by norm_num) (by norm_num) hdist)⟩

end FlightOverhead
